import Mathlib

/-!
Verification of the TRMNL screenshot addon core.

The development shallowly embeds the modules of the addon:

* `screenshot-service.js` — screenshot storage (`getScreenshot`,
  `deleteScreenshot`, `cleanupOldScreenshots`), the capture throttle inside
  `captureScreenshot`, the format dispatch, and the BMP3 conversion pipeline;
* `profile-manager.js` — the profile store (`updateProfile`, `recordCapture`,
  `getProfilesToCapture`, `validateProfile`).

Paths are modelled at the character level (`List Char`) because the
directory-traversal guard in the source is a character-level string-prefix
check (`filepath.startsWith(root)`); byte buffers are abstracted by a type
parameter; timestamps are integers (milliseconds since the epoch, matching
the `Date.getTime()` values the source compares).
-/

/-! ### Path resolution (Node `path.join` on an absolute root)

`path.join(root, filename)` concatenates with a separator and normalizes:
empty and `.` segments are dropped and `..` pops the previous segment,
clamped at the root of an absolute path. -/

/-- Split a character list into path segments at every slash. -/
def splitOnSlash : List Char → List (List Char)
  | [] => [[]]
  | c :: rest =>
    if c = '/' then [] :: splitOnSlash rest
    else
      match splitOnSlash rest with
      | [] => [[c]]
      | s :: ss => (c :: s) :: ss

/-- Render segments back to a character list, separated by slashes. -/
def joinSegs : List (List Char) → List Char
  | [] => []
  | [s] => s
  | s :: rest => s ++ '/' :: joinSegs rest

/-- Normalization loop: drop empty and `.` segments, let `..` pop the last
kept segment (popping past the root of an absolute path is a no-op). -/
def normSegsAux : List (List Char) → List (List Char) → List (List Char)
  | acc, [] => acc.reverse
  | acc, s :: rest =>
    if s = [] ∨ s = ['.'] then normSegsAux acc rest
    else if s = ['.', '.'] then normSegsAux acc.tail rest
    else normSegsAux (s :: acc) rest

/-- The normalized segment list of a path. -/
def normalizeSegs (p : List Char) : List (List Char) :=
  normSegsAux [] (splitOnSlash p)

/-- `path.join(root, filename)` for an absolute `root`: concatenate with a
separator, normalize, and render as an absolute path. -/
def joinPath (root filename : List Char) : List Char :=
  '/' :: joinSegs (normalizeSegs (root ++ '/' :: filename))

/-- A resolved path is inside the storage root when the root's segment list
is a segment-wise prefix of the path's segment list.  This is the intended
"does not escape the storage root" relation the traversal guard is meant to
enforce. -/
def insideRoot (root filepath : List Char) : Bool :=
  List.isPrefixOf (normalizeSegs root) (normalizeSegs filepath)

/-! ### Screenshot store: `getScreenshot` / `deleteScreenshot`

From `screenshot-service.js`: both compute
`filepath = path.join(this.options.screenshotPath, filename)` and guard with
`if (!filepath.startsWith(this.options.screenshotPath))` — a character-level
prefix test on the joined path.  The filesystem is modelled as an association
list from absolute paths to byte-buffer contents. -/

/-- `getScreenshot(filename)`: join, character-prefix guard, then read the
file when it exists (`null` otherwise). -/
def getScreenshot (root filename : List Char) (fsys : List (List Char × Nat)) :
    Option Nat :=
  let filepath := joinPath root filename
  if List.isPrefixOf root filepath then fsys.lookup filepath else none

/-- `deleteScreenshot(filename)`: join, character-prefix guard, then unlink
when the file exists; returns whether a deletion happened, paired with the
filesystem afterwards. -/
def deleteScreenshot (root filename : List Char) (fsys : List (List Char × Nat)) :
    Bool × List (List Char × Nat) :=
  let filepath := joinPath root filename
  if List.isPrefixOf root filepath then
    match fsys.lookup filepath with
    | some _ => (true, fsys.filter (fun e => decide (e.1 ≠ filepath)))
    | none => (false, fsys)
  else (false, fsys)

/-- C1: the claim fails on the code.  With storage root `/data/screenshots`,
the filename `../screenshots-evil/secret` resolves to
`/data/screenshots-evil/secret`, which lies outside the storage root (the
root's segments are not a prefix of its segments), yet the character-level
`startsWith` guard accepts it: `getScreenshot` reads the out-of-root file and
`deleteScreenshot` unlinks it and reports success. -/
theorem getScreenshot_escapes_root :
    joinPath "/data/screenshots".data "../screenshots-evil/secret".data =
      "/data/screenshots-evil/secret".data
    ∧ insideRoot "/data/screenshots".data "/data/screenshots-evil/secret".data = false
    ∧ getScreenshot "/data/screenshots".data "../screenshots-evil/secret".data
        [("/data/screenshots-evil/secret".data, 7)] = some 7
    ∧ (deleteScreenshot "/data/screenshots".data "../screenshots-evil/secret".data
        [("/data/screenshots-evil/secret".data, 7)]).1 = true
    ∧ (deleteScreenshot "/data/screenshots".data "../screenshots-evil/secret".data
        [("/data/screenshots-evil/secret".data, 7)]).2 = [] := by
  decide

/-! ### Capture throttle (`captureScreenshot`, busy-wait loop)

From `screenshot-service.js`:

    while (this.activeCaptures >= this.options.maxConcurrent) {
      await new Promise(resolve => setTimeout(resolve, 100));
    }
    this.activeCaptures++;
    try { ... } finally { this.activeCaptures--; }

Under the single-threaded JavaScript event loop there is no suspension point
between the final (false) evaluation of the loop condition and the
increment, so a caller's admission is an atomic guarded transition
`n < maxConcurrent → n ↦ n + 1`; the `finally` decrement is a transition
`0 < n → n ↦ n - 1` (only a caller that incremented decrements).  The
in-flight counter `activeCaptures` is the state. -/

/-- The two transitions a caller can perform on `activeCaptures`. -/
inductive ThrottleAct where
  | acquire
  | release

/-- One atomic transition of the in-flight counter, for throttle bound
`maxConcurrent`: admission past the wait loop is guarded by
`activeCaptures < maxConcurrent`; the `finally` block decrements. -/
inductive ThrottleStep (maxConcurrent : Nat) : Nat → ThrottleAct → Nat → Prop
  | acquire {n : Nat} : n < maxConcurrent →
      ThrottleStep maxConcurrent n ThrottleAct.acquire (n + 1)
  | release {n : Nat} : 0 < n →
      ThrottleStep maxConcurrent n ThrottleAct.release (n - 1)

/-- Counter values reachable from the initial state `activeCaptures = 0` by
any interleaving of caller transitions. -/
inductive ThrottleReaches (maxConcurrent : Nat) : Nat → Prop
  | init : ThrottleReaches maxConcurrent 0
  | step {n m : Nat} {a : ThrottleAct} : ThrottleReaches maxConcurrent n →
      ThrottleStep maxConcurrent n a m → ThrottleReaches maxConcurrent m

/-- C2: throttle bound.  In every reachable state the in-flight counter
`activeCaptures` is at most `maxConcurrent`, and an admission (acquire)
transition is possible only when strictly fewer than `maxConcurrent`
captures are active. -/
theorem activeCaptures_le_maxConcurrent (maxConcurrent n : Nat)
    (h : ThrottleReaches maxConcurrent n) :
    n ≤ maxConcurrent ∧
      ∀ m : Nat, ThrottleStep maxConcurrent n ThrottleAct.acquire m →
        n < maxConcurrent := by
  constructor
  · induction h with
    | init => exact Nat.zero_le _
    | step hr hs ih =>
      cases hs with
      | acquire hlt => exact hlt
      | release hpos => omega
  · intro m hs
    cases hs with
    | acquire hlt => exact hlt

/-- Witness for C2: with bound 3, the counter value 2 is reachable (two
admissions) and the theorem bounds it by 3. -/
theorem activeCaptures_le_maxConcurrent_witness :
    ThrottleReaches 3 2 ∧ 2 ≤ 3 := by
  have h2 : ThrottleReaches 3 2 :=
    ThrottleReaches.step
      (ThrottleReaches.step ThrottleReaches.init
        (ThrottleStep.acquire (by decide)))
      (ThrottleStep.acquire (by decide))
  exact ⟨h2, (activeCaptures_le_maxConcurrent 3 2 h2).1⟩

/-! ### Capture pipeline exit paths (`captureScreenshot`, try/catch/finally)

The body of the `try` block performs, in order: create the browser context,
open a page, set the viewport, navigate (`page.goto`), take the screenshot,
convert the buffer, write the file, close the page, close the context.  An
exception thrown at step `k` skips the remaining steps (in particular the
`page.close()`/`context.close()` teardown, which is inside the `try`), is
caught by the `catch` block, and the `finally` block then decrements
`activeCaptures` (releases the throttle permit).  A run is abstracted by the
index of the step that throws (`none` = success), and its observable
behaviour by the sequence of performed events. -/

/-- Observable events of one `captureScreenshot` run. -/
inductive CaptureEv where
  | acquire
  | createContext
  | newPage
  | setViewport
  | goto
  | screenshot
  | convert
  | save
  | pageClose
  | contextClose
  | release
deriving DecidableEq

/-- The nine steps of the `try` block, in source order. -/
def tryEvents : List CaptureEv :=
  [CaptureEv.createContext, CaptureEv.newPage, CaptureEv.setViewport,
   CaptureEv.goto, CaptureEv.screenshot, CaptureEv.convert, CaptureEv.save,
   CaptureEv.pageClose, CaptureEv.contextClose]

/-- The event trace of a run of `captureScreenshot` that acquired the
throttle permit: the permit acquisition, then the `try`-block steps up to
the first one that throws (all of them when `failAt = none`), then the
`finally` decrement. -/
def captureTrace (failAt : Option (Fin 9)) : List CaptureEv :=
  CaptureEv.acquire ::
    (match failAt with
     | none => tryEvents
     | some k => tryEvents.take k.val) ++ [CaptureEv.release]

/-- `occursBefore l a b`: the first occurrence of `a` in `l` is strictly
before the first occurrence of `b`. -/
def occursBefore (l : List CaptureEv) (a b : CaptureEv) : Bool :=
  l.findIdx (fun e => e = a) < l.findIdx (fun e => e = b)

/-- C3 counterexample: the claim fails on the code in both respects.  When
navigation (`page.goto`, `try`-step index 3) throws, the context teardown
never happens on that exit path; and on the successful exit path the
teardown precedes the permit release, not the other way around. -/
theorem captureTrace_not_release_before_teardown :
    CaptureEv.contextClose ∉ captureTrace (some 3)
    ∧ occursBefore (captureTrace none) CaptureEv.release CaptureEv.contextClose
        = false := by
  decide

/-- C3 (amended): on every exit path that acquired a permit, the permit is
released, as the final action of the run; the rendering context is torn
down only on the successful exit path, and there the teardown precedes the
permit release. -/
theorem captureTrace_cleanup :
    ∀ failAt : Option (Fin 9),
      (captureTrace failAt).getLast? = some CaptureEv.release
      ∧ (CaptureEv.contextClose ∈ captureTrace failAt ↔ failAt = none)
      ∧ (failAt = none →
          occursBefore (captureTrace failAt) CaptureEv.contextClose
            CaptureEv.release = true) := by
  decide

/-- Witness for C3: the amended theorem instantiated on the successful run,
with the success hypothesis discharged. -/
theorem captureTrace_cleanup_witness :
    (captureTrace none).getLast? = some CaptureEv.release
    ∧ CaptureEv.contextClose ∈ captureTrace none
    ∧ occursBefore (captureTrace none) CaptureEv.contextClose CaptureEv.release
        = true :=
  ⟨(captureTrace_cleanup none).1,
   (captureTrace_cleanup none).2.1.mpr rfl,
   (captureTrace_cleanup none).2.2 rfl⟩

/-! ### Output-format dispatch (`captureScreenshot`, image processing)

From `screenshot-service.js`:

    let finalBuffer = screenshotBuffer;
    if (outputFormat === 'bmp3' || outputFormat === 'bmp') {
      finalBuffer = await this.convertToBMP3(screenshotBuffer);
    } else if (outputFormat === 'jpeg') {
      finalBuffer = await sharp(...).jpeg(...).toBuffer();
    }
    const filename = `...${outputFormat === 'bmp3' ? 'bmp' : outputFormat}`;
    fs.writeFileSync(filepath, finalBuffer);
    return { success: true, ... };

Buffers are abstracted by a type parameter; the two encoders are opaque
function parameters.  There is no other branch: every format other than
`bmp3`, `bmp`, `jpeg` falls through to the raw pass-through, is written to
disk, and the call returns success. -/

/-- The processing branch of `captureScreenshot`: BMP3 conversion for
`bmp3`/`bmp`, JPEG re-encode for `jpeg`, raw pass-through otherwise. -/
def processBuffer {β : Type} (bmpConvert jpegConvert : β → β)
    (outputFormat : String) (screenshotBuffer : β) : β :=
  if outputFormat = "bmp3" ∨ outputFormat = "bmp" then
    bmpConvert screenshotBuffer
  else if outputFormat = "jpeg" then jpegConvert screenshotBuffer
  else screenshotBuffer

/-- The file extension used in the generated filename. -/
def captureExtension (outputFormat : String) : String :=
  if outputFormat = "bmp3" then "bmp" else outputFormat

/-- Outcome of the processing-and-store tail of `captureScreenshot`
(reached once a raster buffer was captured): a success flag and the stored
file, as extension paired with contents. -/
structure CaptureOutcome (β : Type) where
  success : Bool
  stored : Option (String × β)
deriving DecidableEq

/-- The processing-and-store tail of `captureScreenshot`: process the
buffer per the requested format, store it under the generated extension,
and report success.  No format is rejected. -/
def captureProcessAndStore {β : Type} (bmpConvert jpegConvert : β → β)
    (outputFormat : String) (screenshotBuffer : β) : CaptureOutcome β :=
  { success := true,
    stored := some (captureExtension outputFormat,
      processBuffer bmpConvert jpegConvert outputFormat screenshotBuffer) }

/-- C4 counterexample: for the unknown format `gif` the capture does not
fail with `UnsupportedFormat` — it succeeds, and an image (the raw buffer,
unconverted) is stored with extension `gif`. -/
theorem captureProcessAndStore_gif_succeeds :
    ("gif" : String) ∉ (["png", "jpeg", "bmp3", "bmp"] : List String)
    ∧ (captureProcessAndStore (fun b => b + 1) (fun b => b + 2) "gif"
        (0 : Nat)).success = true
    ∧ (captureProcessAndStore (fun b => b + 1) (fun b => b + 2) "gif"
        (0 : Nat)).stored = some ("gif", 0) := by
  decide

/-- C4 (amended): there is no `UnsupportedFormat` rejection in the capture
pipeline.  Every output format other than `bmp3`, `bmp` and `jpeg` —
including every unknown format — takes the pass-through branch: the raw PNG
buffer is stored unchanged under the requested format as extension, and the
capture reports success. -/
theorem captureProcessAndStore_passthrough {β : Type}
    (bmpConvert jpegConvert : β → β) (outputFormat : String)
    (screenshotBuffer : β)
    (h : outputFormat ∉ (["bmp3", "bmp", "jpeg"] : List String)) :
    processBuffer bmpConvert jpegConvert outputFormat screenshotBuffer
        = screenshotBuffer
    ∧ captureProcessAndStore bmpConvert jpegConvert outputFormat
        screenshotBuffer
      = { success := true,
          stored := some (captureExtension outputFormat, screenshotBuffer) } := by
  simp only [List.mem_cons, List.not_mem_nil, or_false, not_or] at h
  obtain ⟨h1, h2, h3⟩ := h
  constructor
  · simp [processBuffer, h1, h2, h3]
  · simp [captureProcessAndStore, processBuffer, h1, h2, h3]

/-- Witness for C4: the amended theorem applied at format `gif` on a
concrete buffer, with the membership hypothesis discharged. -/
theorem captureProcessAndStore_passthrough_witness :
    processBuffer (fun b => b + 1) (fun b => b + 2) "gif" (5 : Nat) = 5
    ∧ captureProcessAndStore (fun b => b + 1) (fun b => b + 2) "gif" (5 : Nat)
      = { success := true, stored := some (captureExtension "gif", 5) } :=
  captureProcessAndStore_passthrough (fun b => b + 1) (fun b => b + 2) "gif" 5
    (by decide)

/-! ### BMP3 conversion pipeline (`convertToBMP3`)

From `screenshot-service.js`:

    let processed = sharp(pngBuffer).greyscale();
    if (bitDepth === 1) {
      processed = processed.threshold(128).png({ colors: 2, dither: 1 });
    } else if (bitDepth === 2) {
      processed = processed.png({ colors: 4 });
    }

The sharp pipeline applies its operations in the order they are chained, so
the conversion is embedded as the ordered list of image operations it
builds.  `pngEncode colors dither` is the palette-quantizing PNG encode;
its `dither` argument is `some 1` when the code passes `dither: 1`
(Floyd–Steinberg) and `none` when the code passes no dither option. -/

/-- One chained sharp operation in `convertToBMP3`. -/
inductive ImgOp where
  | greyscale
  | threshold (level : Nat)
  | pngEncode (colors : Nat) (dither : Option Nat)
deriving DecidableEq

/-- The operation pipeline built by `convertToBMP3` for a bit depth. -/
def convertToBMP3Ops (bitDepth : Nat) : List ImgOp :=
  let processed := [ImgOp.greyscale]
  if bitDepth = 1 then
    processed ++ [ImgOp.threshold 128, ImgOp.pngEncode 2 (some 1)]
  else if bitDepth = 2 then processed ++ [ImgOp.pngEncode 4 none]
  else processed

/-- Whether an operation is a hard threshold. -/
def isThresholdOp : ImgOp → Bool
  | ImgOp.threshold _ => true
  | _ => false

/-- Whether an operation performs dithering (a palette encode with a
nonzero dither setting). -/
def isDitherOp : ImgOp → Bool
  | ImgOp.pngEncode _ (some d) => decide (d ≠ 0)
  | _ => false

/-- C8 counterexample: in the 1-bit pipeline the dithering step does not
precede the thresholding step — the code chains `.threshold(128)` first and
only then the dithering palette encode. -/
theorem convertToBMP3_dither_not_before_threshold :
    ((convertToBMP3Ops 1).findIdx isDitherOp
        < (convertToBMP3Ops 1).findIdx isThresholdOp) = False := by
  decide

/-- C8 (amended): at 1-bit depth the image is converted to greyscale, then
thresholded at the midpoint 128, and then palette-encoded to 2 colors with
Floyd–Steinberg dithering enabled — i.e. the hard threshold precedes the
dithering step; at 2-bit depth the image is converted to greyscale and
quantized to a 4-color palette with no threshold step. -/
theorem convertToBMP3_pipeline_order :
    convertToBMP3Ops 1
      = [ImgOp.greyscale, ImgOp.threshold 128, ImgOp.pngEncode 2 (some 1)]
    ∧ ((convertToBMP3Ops 1).findIdx isThresholdOp
        < (convertToBMP3Ops 1).findIdx isDitherOp)
    ∧ convertToBMP3Ops 2 = [ImgOp.greyscale, ImgOp.pngEncode 4 none]
    ∧ (convertToBMP3Ops 2).all (fun op => !isThresholdOp op) = true := by
  decide

/-! ### Profile store (`profile-manager.js`)

Profiles live in an in-memory object keyed by a generated hex identifier and
are rewritten to disk (`saveProfiles`) after every mutation.  The object is
modelled as an association list; timestamps are integers (milliseconds, the
values `Date.getTime()` compares); the ISO strings the source stores convert
to and from these values monotonically, so comparisons are preserved. -/

/-- A capture profile, with the fields `createProfile` initializes. -/
structure Profile where
  id : String
  name : String
  url : String
  width : Int
  height : Int
  theme : String
  refreshInterval : Int
  outputFormat : String
  enabled : Bool
  description : String
  created : Int
  modified : Option Int
  lastRun : Option Int
  lastSuccess : Option Int
  failureCount : Nat
deriving DecidableEq

/-- The profile store: identifier-keyed map, as an association list. -/
def ProfileStore : Type := List (String × Profile)

/-- Replace the profile stored under `id` (JS `this.profiles[id] = p`). -/
def setProfile (profiles : ProfileStore) (id : String) (p : Profile) :
    ProfileStore :=
  profiles.map (fun kv => if kv.1 = id then (kv.1, p) else kv)

/-- `getProfile(id)`: the stored profile, or null. -/
def getProfile (profiles : ProfileStore) (id : String) : Option Profile :=
  profiles.lookup id

/-- The mutation `recordCapture` performs on an existing profile:
`lastRun` is set to the current time on every attempt; success resets
`failureCount` to 0 and sets `lastSuccess`; failure increments
`failureCount`. -/
def recordedProfile (p : Profile) (success : Bool) (now : Int) : Profile :=
  if success then
    { p with lastRun := some now, lastSuccess := some now, failureCount := 0 }
  else
    { p with lastRun := some now, failureCount := p.failureCount + 1 }

/-- `recordCapture(id, success)`: returns early when no profile has the
identifier; otherwise mutates the profile and persists.  The boolean in the
result records whether `saveProfiles` was called. -/
def recordCapture (profiles : ProfileStore) (id : String) (success : Bool)
    (now : Int) : ProfileStore × Bool :=
  match profiles.lookup id with
  | none => (profiles, false)
  | some p => (setProfile profiles id (recordedProfile p success now), true)

/-- A sequence of `recordCapture` calls on one profile, each given as an
outcome flag paired with its timestamp. -/
def recordSeq (profiles : ProfileStore) (id : String)
    (calls : List (Bool × Int)) : ProfileStore :=
  calls.foldl (fun st c => (recordCapture st id c.1 c.2).1) profiles

/-- Looking up after `setProfile` on a key that was present yields the new
profile. -/
theorem lookup_setProfile (profiles : ProfileStore) (id : String)
    (p0 p : Profile) (h : profiles.lookup id = some p0) :
    (setProfile profiles id p).lookup id = some p := by
  induction profiles with
  | nil => simp [List.lookup] at h
  | cons kv rest ih =>
    obtain ⟨k, q⟩ := kv
    by_cases hk : k = id
    · subst hk
      have hmap : setProfile ((k, q) :: rest) k p = (k, p) :: setProfile rest k p := by
        simp [setProfile]
      rw [hmap]
      simp [List.lookup]
    · have hne : (id == k) = false := by
        simp only [beq_eq_false_iff_ne, ne_eq]
        exact fun he => hk he.symm
      have hmap : setProfile ((k, q) :: rest) id p
          = (k, q) :: setProfile rest id p := by
        simp [setProfile, hk]
      rw [hmap]
      simp only [List.lookup, hne] at h ⊢
      exact ih h

/-- `recordCapture` on an existing profile rewrites exactly that entry. -/
theorem recordCapture_lookup (profiles : ProfileStore) (id : String)
    (p : Profile) (success : Bool) (now : Int)
    (h : profiles.lookup id = some p) :
    (recordCapture profiles id success now).1.lookup id
      = some (recordedProfile p success now) := by
  simp only [recordCapture, h]
  exact lookup_setProfile profiles id p _ h

/-- A sample stored profile (field values as `createProfile` defaults them),
used to instantiate witness statements. -/
def sampleProfile : Profile :=
  { id := "a1b2c3d4", name := "Dashboard",
    url := "http://homeassistant.local:8123/lovelace/default",
    width := 800, height := 480, theme := "light", refreshInterval := 0,
    outputFormat := "png", enabled := true, description := "",
    created := 1700000000000, modified := none, lastRun := none,
    lastSuccess := none, failureCount := 0 }

/-- C5: run-history bookkeeping of `recordCapture` on an existing profile.
Every call sets `lastRun` to its timestamp regardless of outcome; a success
resets `failureCount` to 0 and sets `lastSuccess` to the call's timestamp; a
failure increments `failureCount` by 1 and leaves `lastSuccess` alone; and
three failures followed by one success end with `failureCount = 0` and
`lastSuccess` equal to the final call's timestamp. -/
theorem recordCapture_spec (profiles : ProfileStore) (id : String)
    (p : Profile) (now t1 t2 t3 t4 : Int)
    (h : profiles.lookup id = some p) :
    (∀ success : Bool,
      ((recordCapture profiles id success now).1.lookup id).map Profile.lastRun
        = some (some now))
    ∧ (recordCapture profiles id true now).1.lookup id
        = some { p with lastRun := some now, lastSuccess := some now,
                        failureCount := 0 }
    ∧ (recordCapture profiles id false now).1.lookup id
        = some { p with lastRun := some now,
                        failureCount := p.failureCount + 1 }
    ∧ (recordSeq profiles id
          [(false, t1), (false, t2), (false, t3), (true, t4)]).lookup id
        = some { p with lastRun := some t4, lastSuccess := some t4,
                        failureCount := 0 } := by
  have h1 := recordCapture_lookup profiles id p false t1 h
  have h2 := recordCapture_lookup _ id _ false t2 h1
  have h3 := recordCapture_lookup _ id _ false t3 h2
  have h4 := recordCapture_lookup _ id _ true t4 h3
  refine ⟨?_, ?_, ?_, ?_⟩
  · intro success
    rw [recordCapture_lookup profiles id p success now h]
    cases success <;> simp [recordedProfile]
  · rw [recordCapture_lookup profiles id p true now h]
    simp [recordedProfile]
  · rw [recordCapture_lookup profiles id p false now h]
    simp [recordedProfile]
  · simp only [recordSeq, List.foldl]
    rw [h4]
    simp [recordedProfile]

/-- Witness for C5: on a concrete one-profile store, three failed calls
then one successful call leave `failureCount = 0` and `lastSuccess` equal
to the final timestamp. -/
theorem recordCapture_spec_witness :
    (recordSeq [("a1b2c3d4", sampleProfile)] "a1b2c3d4"
        [(false, 10), (false, 20), (false, 30), (true, 40)]).lookup "a1b2c3d4"
      = some { sampleProfile with lastRun := some 40, lastSuccess := some 40,
                                  failureCount := 0 } :=
  (recordCapture_spec [("a1b2c3d4", sampleProfile)] "a1b2c3d4" sampleProfile
    0 10 20 30 40 rfl).2.2.2

/-- C10: `recordCapture` with an identifier naming no profile is a silent
no-op — it returns without raising, the store is unchanged, and
`saveProfiles` is not called (nothing is persisted). -/
theorem recordCapture_missing_noop (profiles : ProfileStore) (id : String)
    (success : Bool) (now : Int) (h : profiles.lookup id = none) :
    recordCapture profiles id success now = (profiles, false) := by
  simp [recordCapture, h]

/-- Witness for C10: a call on a missing identifier against a concrete
non-empty store leaves it untouched and unpersisted. -/
theorem recordCapture_missing_noop_witness :
    recordCapture [("a1b2c3d4", sampleProfile)] "missing" true 5
      = ([("a1b2c3d4", sampleProfile)], false) :=
  recordCapture_missing_noop [("a1b2c3d4", sampleProfile)] "missing" true 5 rfl

/-! ### Scheduler predicate (`getProfilesToCapture`)

From `profile-manager.js`: skip when `!profile.enabled` or
`profile.refreshInterval <= 0`; otherwise due when
`now >= lastRun + refreshInterval * 1000`, with a null `lastRun` read as 0
(the epoch). -/

/-- The due test applied to one profile (the loop body's conditions). -/
def isDue (p : Profile) (now : Int) : Bool :=
  if !p.enabled || decide (p.refreshInterval ≤ 0) then false
  else
    decide ((match p.lastRun with | some t => t | none => 0)
      + p.refreshInterval * 1000 ≤ now)

/-- `getProfilesToCapture()`: the stored profiles that are due now. -/
def getProfilesToCapture (profiles : ProfileStore) (now : Int) : List Profile :=
  (profiles.map (fun kv => kv.2)).filter (fun p => isDue p now)

/-- The due test, characterized. -/
theorem isDue_iff (p : Profile) (now : Int) :
    isDue p now = true ↔
      (p.enabled = true ∧ 0 < p.refreshInterval
        ∧ p.lastRun.getD 0 + p.refreshInterval * 1000 ≤ now) := by
  unfold isDue
  by_cases he : p.enabled
  · by_cases hr : p.refreshInterval ≤ 0
    · simp [he, hr]
    · cases hl : p.lastRun <;> simp [he, hr, hl] <;> omega
  · simp [he]

/-- C6: a profile is selected by the scheduler iff it is stored, enabled,
has a positive refresh interval, and `now` has reached
`lastRun + refreshInterval` (interval in seconds, times in milliseconds; a
never-run profile's `lastRun` reads as the epoch 0). -/
theorem getProfilesToCapture_iff (profiles : ProfileStore) (now : Int)
    (p : Profile) :
    p ∈ getProfilesToCapture profiles now ↔
      (p ∈ profiles.map (fun kv => kv.2) ∧ p.enabled = true
        ∧ 0 < p.refreshInterval
        ∧ p.lastRun.getD 0 + p.refreshInterval * 1000 ≤ now) := by
  unfold getProfilesToCapture
  rw [List.mem_filter, isDue_iff]

/-- A profile whose interval is 60 seconds and whose last run is 90 seconds
before the sample instant 1700000000000 ms. -/
def profileRan90sAgo : Profile :=
  { sampleProfile with refreshInterval := 60, lastRun := some 1699999910000 }

/-- A profile whose interval is 60 seconds and whose last run is 30 seconds
before the sample instant 1700000000000 ms. -/
def profileRan30sAgo : Profile :=
  { sampleProfile with refreshInterval := 60, lastRun := some 1699999970000 }

/-- Witness for C6: with `refreshInterval = 60` seconds, a profile whose
`lastRun` is 90 seconds in the past is selected (via the theorem), and one
whose `lastRun` is 30 seconds in the past is not. -/
theorem getProfilesToCapture_iff_witness :
    profileRan90sAgo
      ∈ getProfilesToCapture [("a1", profileRan90sAgo)] 1700000000000
    ∧ profileRan30sAgo
      ∉ getProfilesToCapture [("b1", profileRan30sAgo)] 1700000000000 :=
  ⟨(getProfilesToCapture_iff _ _ _).mpr (by decide), by decide⟩

/-! ### Profile update (`updateProfile`) and validation (`validateProfile`)

`updateProfile` copies each of the nine allow-listed fields present in the
update object into the profile verbatim, stamps `modified`, and persists; it
performs no validation (the HTTP handler `handleUpdateProfile` also calls it
directly on the request body).  `validateProfile` — called only by the
create path — builds the full error list; its JavaScript guards skip a check
when the field is absent or falsy (empty string, zero). -/

/-- A partial update object: `some` marks a field present in the body. -/
structure ProfileUpdates where
  name : Option String := none
  url : Option String := none
  width : Option Int := none
  height : Option Int := none
  theme : Option String := none
  refreshInterval : Option Int := none
  outputFormat : Option String := none
  enabled : Option Bool := none
  description : Option String := none
deriving DecidableEq

/-- The allow-list copy loop of `updateProfile`: every present field is
stored verbatim; identifier, creation timestamp and run-history fields are
untouched; `modified` is stamped. -/
def applyUpdates (p : Profile) (u : ProfileUpdates) (now : Int) : Profile :=
  { p with
    name := u.name.getD p.name,
    url := u.url.getD p.url,
    width := u.width.getD p.width,
    height := u.height.getD p.height,
    theme := u.theme.getD p.theme,
    refreshInterval := u.refreshInterval.getD p.refreshInterval,
    outputFormat := u.outputFormat.getD p.outputFormat,
    enabled := u.enabled.getD p.enabled,
    description := u.description.getD p.description,
    modified := some now }

/-- `updateProfile(id, updates)`: throws when the profile is missing,
otherwise applies the allow-list copy and persists the store. -/
def updateProfile (profiles : ProfileStore) (id : String) (u : ProfileUpdates)
    (now : Int) : Except String (ProfileStore × Profile) :=
  match profiles.lookup id with
  | none => Except.error ("Profile not found: " ++ id)
  | some p =>
    Except.ok (setProfile profiles id (applyUpdates p u now), applyUpdates p u now)

/-- JavaScript falsiness of an optional string (absent or empty). -/
def strFalsy : Option String → Bool
  | none => true
  | some s => decide (s = "")

/-- JavaScript falsiness of an optional number (absent or zero). -/
def intFalsy : Option Int → Bool
  | none => true
  | some n => decide (n = 0)

/-- Result of `validateProfile`: validity flag plus the full error list. -/
structure ValidationResult where
  valid : Bool
  errors : List String
deriving DecidableEq

/-- `validateProfile(config)`: collect every violated check.  Each range or
enum check fires only when the field is truthy, mirroring the
`config.field && (...)` guards of the source. -/
def validateProfile (config : ProfileUpdates) : ValidationResult :=
  let errors :=
    (if strFalsy config.url then ["URL is required and must be a string"]
     else [])
    ++ (if strFalsy config.name then ["Name is required and must be a string"]
        else [])
    ++ (if !intFalsy config.width
          && decide (config.width.getD 0 < 100 ∨ 4000 < config.width.getD 0)
        then ["Width must be a number between 100 and 4000"] else [])
    ++ (if !intFalsy config.height
          && decide (config.height.getD 0 < 100 ∨ 4000 < config.height.getD 0)
        then ["Height must be a number between 100 and 4000"] else [])
    ++ (if !strFalsy config.theme
          && decide (config.theme.getD "" ∉ (["light", "dark"] : List String))
        then ["Theme must be either light or dark"] else [])
    ++ (if !intFalsy config.refreshInterval
          && decide (config.refreshInterval.getD 0 < 0)
        then ["Refresh interval must be a non-negative number"] else [])
    ++ (if !strFalsy config.outputFormat
          && decide (config.outputFormat.getD ""
                ∉ (["png", "jpeg", "bmp3", "bmp"] : List String))
        then ["Output format must be one of: png, jpeg, bmp3, bmp"] else [])
  { valid := errors.isEmpty, errors := errors }

/-- C9: `updateProfile` on an existing profile copies every present
allow-listed field into the profile verbatim — with no range or enum check
of any kind, since the statement holds for every update object, including
ones `validateProfile` rejects — and leaves the identifier, creation
timestamp and run-history fields unchanged. -/
theorem updateProfile_stores_verbatim (profiles : ProfileStore) (id : String)
    (p : Profile) (u : ProfileUpdates) (now : Int)
    (h : profiles.lookup id = some p) :
    updateProfile profiles id u now
      = Except.ok (setProfile profiles id (applyUpdates p u now),
                   applyUpdates p u now)
    ∧ (applyUpdates p u now).name = u.name.getD p.name
    ∧ (applyUpdates p u now).url = u.url.getD p.url
    ∧ (applyUpdates p u now).width = u.width.getD p.width
    ∧ (applyUpdates p u now).height = u.height.getD p.height
    ∧ (applyUpdates p u now).theme = u.theme.getD p.theme
    ∧ (applyUpdates p u now).refreshInterval
        = u.refreshInterval.getD p.refreshInterval
    ∧ (applyUpdates p u now).outputFormat = u.outputFormat.getD p.outputFormat
    ∧ (applyUpdates p u now).enabled = u.enabled.getD p.enabled
    ∧ (applyUpdates p u now).description = u.description.getD p.description
    ∧ (applyUpdates p u now).id = p.id
    ∧ (applyUpdates p u now).created = p.created
    ∧ (applyUpdates p u now).lastRun = p.lastRun
    ∧ (applyUpdates p u now).lastSuccess = p.lastSuccess
    ∧ (applyUpdates p u now).failureCount = p.failureCount := by
  refine ⟨?_, rfl, rfl, rfl, rfl, rfl, rfl, rfl, rfl, rfl, rfl, rfl, rfl,
    rfl, rfl⟩
  simp [updateProfile, h]

/-- An update object `validateProfile` rejects on all three counts: width
below the 100 floor, an unknown theme, an unknown output format. -/
def invalidUpdates : ProfileUpdates :=
  { width := some 50, theme := some "blue", outputFormat := some "gif" }

/-- Witness for C9: the out-of-range update `width=50, theme="blue",
outputFormat="gif"` — reported invalid by `validateProfile` — is stored
verbatim by `updateProfile`. -/
theorem updateProfile_stores_verbatim_witness :
    (validateProfile invalidUpdates).valid = false
    ∧ updateProfile [("a1b2c3d4", sampleProfile)] "a1b2c3d4" invalidUpdates 99
        = Except.ok
            (setProfile [("a1b2c3d4", sampleProfile)] "a1b2c3d4"
              (applyUpdates sampleProfile invalidUpdates 99),
             applyUpdates sampleProfile invalidUpdates 99)
    ∧ (applyUpdates sampleProfile invalidUpdates 99).width = 50
    ∧ (applyUpdates sampleProfile invalidUpdates 99).theme = "blue"
    ∧ (applyUpdates sampleProfile invalidUpdates 99).outputFormat = "gif" :=
  ⟨by decide,
   (updateProfile_stores_verbatim [("a1b2c3d4", sampleProfile)] "a1b2c3d4"
      sampleProfile invalidUpdates 99 rfl).1,
   by decide, by decide, by decide⟩

/-! ### Retention sweep (`cleanupOldScreenshots`)

From `screenshot-service.js`: list the directory, keep the `screenshot-`
files, sort newest-first with the comparator
`(a, b) => b.modified - a.modified`, then for entry `i` delete when
`i >= maxCount || now - file.modified.getTime() > maxAgeMs` with
`maxAgeMs = maxAgeHours * 60 * 60 * 1000`; return the number deleted.  The
sweep is embedded as a pure function from the directory listing (filename
with modification time, milliseconds) to the listing afterwards paired with
the deleted count; both sweeps of an idempotence statement are evaluated at
the same instant `now`, the reading of running the sweep "again immediately
with no new writes". -/

/-- One entry of the screenshot directory listing. -/
structure StoredFile where
  filename : String
  mtime : Nat
deriving DecidableEq

/-- The sort order of the sweep: the comparator
`(a, b) => b.modified - a.modified` keeps `a` before `b` exactly when
`b.modified ≤ a.modified` — newest first. -/
def newestFirst (a b : StoredFile) : Bool :=
  decide (b.mtime ≤ a.mtime)

/-- The `screenshot-` filename filter applied to the directory listing. -/
def isScreenshotFile (f : StoredFile) : Bool :=
  f.filename.startsWith "screenshot-"

/-- The deletion loop of the sweep over the sorted listing, starting at
entry index `i`: returns the surviving entries (in order) and the number
deleted. -/
def sweepGo (maxCount maxAgeMs now : Nat) : Nat → List StoredFile →
    List StoredFile × Nat
  | _, [] => ([], 0)
  | i, f :: rest =>
    let r := sweepGo maxCount maxAgeMs now (i + 1) rest
    if maxCount ≤ i ∨ maxAgeMs < now - f.mtime then (r.1, r.2 + 1)
    else (f :: r.1, r.2)

/-- `cleanupOldScreenshots(maxAgeHours, maxCount)` at instant `now`, as a
function of the directory listing: filter to screenshot files, sort
newest-first, run the deletion loop; the directory afterwards holds the
untouched non-screenshot files and the survivors. -/
def cleanupOldScreenshots (files : List StoredFile)
    (maxAgeHours maxCount now : Nat) : List StoredFile × Nat :=
  let entries := (files.filter isScreenshotFile).mergeSort newestFirst
  let maxAgeMs := maxAgeHours * 60 * 60 * 1000
  let r := sweepGo maxCount maxAgeMs now 0 entries
  (files.filter (fun f => !isScreenshotFile f) ++ r.1, r.2)

/-- With `maxCount = 0` the deletion loop deletes every entry. -/
theorem sweepGo_maxCount_zero (ma now : Nat) (i : Nat) (l : List StoredFile) :
    sweepGo 0 ma now i l = ([], l.length) := by
  induction l generalizing i with
  | nil => rfl
  | cons f rest ih => simp [sweepGo, ih (i + 1), Nat.zero_le]

/-- The survivors of the deletion loop form a sublist of its input. -/
theorem sweepGo_sublist (mc ma now : Nat) (i : Nat) (l : List StoredFile) :
    (sweepGo mc ma now i l).1.Sublist l := by
  induction l generalizing i with
  | nil => simp [sweepGo]
  | cons f rest ih =>
    by_cases hd : mc ≤ i ∨ ma < now - f.mtime
    · simpa [sweepGo, hd] using (ih (i + 1)).cons f
    · simpa [sweepGo, hd] using (ih (i + 1)).cons₂ f

/-- A list the deletion loop leaves whole at index `i + 1` it also leaves
whole at the smaller index `i` (the index guard `maxCount ≤ i` only gets
easier to avoid). -/
theorem sweepGo_keep_of_succ (mc ma now : Nat) (i : Nat) (l : List StoredFile)
    (h : sweepGo mc ma now (i + 1) l = (l, 0)) :
    sweepGo mc ma now i l = (l, 0) := by
  induction l generalizing i with
  | nil => rfl
  | cons f rest ih =>
    by_cases hd1 : mc ≤ i + 1 ∨ ma < now - f.mtime
    · exfalso
      simp [sweepGo, hd1] at h
    · have hd0 : ¬(mc ≤ i ∨ ma < now - f.mtime) := by
        intro hc
        apply hd1
        cases hc with
        | inl hle => exact Or.inl (Nat.le_succ_of_le hle)
        | inr hma => exact Or.inr hma
      simp only [sweepGo, if_neg hd1, Prod.mk.injEq, List.cons.injEq,
        true_and] at h
      have hres : sweepGo mc ma now (i + 1 + 1) rest = (rest, 0) :=
        Prod.ext h.1 h.2
      have h2 : sweepGo mc ma now (i + 1) rest = (rest, 0) := ih (i + 1) hres
      simp [sweepGo, hd0, h2]

/-- Running the deletion loop on its own survivors (same parameters, same
instant, same starting index) deletes nothing and keeps them all. -/
theorem sweepGo_idem (mc ma now : Nat) (i : Nat) (l : List StoredFile) :
    sweepGo mc ma now i (sweepGo mc ma now i l).1
      = ((sweepGo mc ma now i l).1, 0) := by
  induction l generalizing i with
  | nil => simp [sweepGo]
  | cons f rest ih =>
    by_cases hd : mc ≤ i ∨ ma < now - f.mtime
    · simpa [sweepGo, hd] using
        sweepGo_keep_of_succ mc ma now i _ (ih (i + 1))
    · simp [sweepGo, hd, ih (i + 1)]

/-- Non-screenshot files never re-enter the screenshot filter. -/
theorem filter_not_screenshot (files : List StoredFile) :
    (files.filter (fun f => !isScreenshotFile f)).filter isScreenshotFile
      = [] := by
  rw [List.filter_eq_nil_iff]
  intro a ha
  have hmem := List.mem_filter.mp ha
  simp only [Bool.not_eq_true'] at hmem
  simp [hmem.2]

/-- A second sweep with the same parameters at the same instant, on the
directory the first sweep left behind, deletes nothing. -/
theorem cleanupOldScreenshots_second_sweep (files : List StoredFile)
    (maxAgeHours maxCount now : Nat) :
    (cleanupOldScreenshots
        (cleanupOldScreenshots files maxAgeHours maxCount now).1
        maxAgeHours maxCount now).2 = 0 := by
  have htrans : ∀ a b c : StoredFile, newestFirst a b = true →
      newestFirst b c = true → newestFirst a c = true := by
    intro a b c hab hbc
    simp only [newestFirst, decide_eq_true_eq] at hab hbc ⊢
    omega
  have htotal : ∀ a b : StoredFile,
      (newestFirst a b || newestFirst b a) = true := by
    intro a b
    simp only [newestFirst, Bool.or_eq_true, decide_eq_true_eq]
    omega
  have hsortedEntries :
      List.Pairwise (fun a b => newestFirst a b = true)
        ((files.filter isScreenshotFile).mergeSort newestFirst) :=
    List.sorted_mergeSort htrans htotal (files.filter isScreenshotFile)
  have hfilterSurv :
      (sweepGo maxCount (maxAgeHours * 60 * 60 * 1000) now 0
          ((files.filter isScreenshotFile).mergeSort newestFirst)).1.filter
          isScreenshotFile
        = (sweepGo maxCount (maxAgeHours * 60 * 60 * 1000) now 0
            ((files.filter isScreenshotFile).mergeSort newestFirst)).1 := by
    rw [List.filter_eq_self]
    intro a ha
    have h1 : a ∈ (files.filter isScreenshotFile).mergeSort newestFirst :=
      (sweepGo_sublist _ _ _ _ _).subset ha
    have h2 : a ∈ files.filter isScreenshotFile :=
      (List.mergeSort_perm (files.filter isScreenshotFile)
        newestFirst).subset h1
    exact (List.mem_filter.mp h2).2
  have hsortedSurv :
      List.Pairwise (fun a b => newestFirst a b = true)
        (sweepGo maxCount (maxAgeHours * 60 * 60 * 1000) now 0
          ((files.filter isScreenshotFile).mergeSort newestFirst)).1 :=
    List.Pairwise.sublist (sweepGo_sublist _ _ _ _ _) hsortedEntries
  have hidem := sweepGo_idem maxCount (maxAgeHours * 60 * 60 * 1000) now 0
    ((files.filter isScreenshotFile).mergeSort newestFirst)
  simp only [cleanupOldScreenshots]
  rw [List.filter_append, filter_not_screenshot, hfilterSurv,
    List.nil_append, List.mergeSort_of_sorted hsortedSurv, hidem]

/-- C7: retention is idempotent at a fixed instant.  A sweep with
`maxAgeHours = 0, maxCount = 0` deletes every stored screenshot and returns
their count, leaving no screenshot file behind; re-running it immediately
deletes zero; and in general, a second sweep with the same parameters at
the same instant with no new writes deletes nothing further. -/
theorem cleanupOldScreenshots_retain_idempotent (files : List StoredFile)
    (now : Nat) :
    (cleanupOldScreenshots files 0 0 now).2
        = (files.filter isScreenshotFile).length
    ∧ (cleanupOldScreenshots files 0 0 now).1.filter isScreenshotFile = []
    ∧ (cleanupOldScreenshots
        (cleanupOldScreenshots files 0 0 now).1 0 0 now).2 = 0
    ∧ ∀ maxAgeHours maxCount : Nat,
        (cleanupOldScreenshots
          (cleanupOldScreenshots files maxAgeHours maxCount now).1
          maxAgeHours maxCount now).2 = 0 := by
  refine ⟨?_, ?_, cleanupOldScreenshots_second_sweep files 0 0 now,
    fun maxAgeHours maxCount =>
      cleanupOldScreenshots_second_sweep files maxAgeHours maxCount now⟩
  · simp only [cleanupOldScreenshots, sweepGo_maxCount_zero]
    exact (List.mergeSort_perm _ newestFirst).length_eq
  · simp only [cleanupOldScreenshots, sweepGo_maxCount_zero]
    rw [List.append_nil, filter_not_screenshot]
